import Mathlib

/-!
Shallow embedding of the report layout and classification engine of
`src/__main__.py` (delivery-deploy): the slide paginator
`calculate_projects_per_slide`, the column-width allocator
`calculate_column_widths`, the three status classifiers
(`get_status_color`, `get_quality_status_color`, `get_feedback_color`),
and the outcome logic of the serverless entry point `main`.

Python semantics mapped as follows: non-negative `int` values are `Nat`
(Python `//` and `%` on non-negative operands coincide with `Nat` division
and modulo); float widths are `ℚ` (the claims speak of exact rational
identities); `str.lower()` is `String.toLower`, `str.strip().upper()` is
`String.trim.toUpper`, and Python's substring test `needle in hay` is the
`pyIn` helper below.  Python truthiness of a string argument is the test
against the empty string.  Early `return` chains become nested `if`
expressions or `Option`-valued helpers.
-/

namespace DeliveryDeploy

/-- An RGB color triple, mirroring `pptx.dml.color.RGBColor`. -/
structure RGBColor where
  r : Nat
  g : Nat
  b : Nat
deriving DecidableEq, Repr

/-- Does `needle` occur as a contiguous substring of `hay` (lists of chars)? -/
def isInfixChars (needle : List Char) : List Char → Bool
  | [] => needle.isPrefixOf []
  | c :: rest => needle.isPrefixOf (c :: rest) || isInfixChars needle rest

/-- Python's `needle in hay` substring test; the needle is given as a string
literal, the haystack is an already-processed character list. -/
def pyIn (needle : String) (hay : List Char) : Bool :=
  isInfixChars needle.toList hay

/-- Python's `str.lower()`, as a character list. -/
def pyLower (s : String) : List Char :=
  s.toList.map Char.toLower

/-- Python's `str.strip().upper()`, as a character list: whitespace removed
from both ends, then uppercased. -/
def pyStripUpper (s : String) : List Char :=
  ((((s.toList.dropWhile Char.isWhitespace).reverse).dropWhile
    Char.isWhitespace).reverse).map Char.toUpper

/-! Colors appearing in the source, named for readability. -/

/-- `RGBColor(192, 192, 192)` — gray for empty status in `get_status_color`. -/
def gray192 : RGBColor := ⟨192, 192, 192⟩

/-- `RGBColor(146, 208, 80)` — green. -/
def green : RGBColor := ⟨146, 208, 80⟩

/-- `RGBColor(255, 192, 0)` — amber/orange. -/
def amber : RGBColor := ⟨255, 192, 0⟩

/-- `RGBColor(255, 0, 0)` — red. -/
def red : RGBColor := ⟨255, 0, 0⟩

/-- `RGBColor(217, 217, 217)` — light gray. -/
def lightGray : RGBColor := ⟨217, 217, 217⟩

/-- `RGBColor(0, 176, 80)` — dark green used by `get_quality_status_color`. -/
def darkGreen : RGBColor := ⟨0, 176, 80⟩

/-- `RGBColor(128, 128, 128)` — gray used by `get_quality_status_color`. -/
def gray128 : RGBColor := ⟨128, 128, 128⟩

/-- `RGBColor(255, 255, 153)` — light yellow. -/
def lightYellow : RGBColor := ⟨255, 255, 153⟩

/-- `RGBColor(255, 192, 203)` — light red / pink. -/
def lightRed : RGBColor := ⟨255, 192, 203⟩

/-- `get_status_color` (src/__main__.py lines 121-135): sentiment
(traffic-light) color for free-text status fields.  Substring checks on
the lowercased status, in source order: green/yes, amber/yellow, red/no. -/
def get_status_color (status : String) : RGBColor :=
  if status = "" then gray192
  else
    let status_lower := pyLower status
    if pyIn "green" status_lower || pyIn "yes" status_lower then green
    else if pyIn "amber" status_lower || pyIn "yellow" status_lower then amber
    else if pyIn "red" status_lower || pyIn "no" status_lower then red
    else lightGray

/-- `get_quality_status_color` (src/__main__.py lines 902-933): completion
color for yes/no/partial style audit fields.  Exact whole-token matches on
`status.strip().upper()` first (green, then orange, then gray tiers), then
substring fallback on `status.lower()` in source order:
not applicable/n-slash-a, then pending/partial/missing, then
yes/complete/available; default gray. -/
def get_quality_status_color (status : String) : RGBColor :=
  if status = "" then gray128
  else
    let status_str := pyStripUpper status
    if ["YES", "Y", "COMPLETE", "COMPLETED", "DONE", "UP TO DATE"].any
        (fun t => status_str == t.toList) then
      darkGreen
    else if ["PARTIAL", "PENDING", "IN PROGRESS", "SCHEDULED", "ONGOING"].any
        (fun t => status_str == t.toList) then
      amber
    else if ["N/A", "NA", "NOT APPLICABLE", "NO", "NONE"].any
        (fun t => status_str == t.toList) then
      gray128
    else
      let status_lower := pyLower status
      if pyIn "not applicable" status_lower || pyIn "n/a" status_lower then gray128
      else if pyIn "pending" status_lower || pyIn "partial" status_lower
           || pyIn "missing" status_lower then amber
      else if pyIn "yes" status_lower || pyIn "complete" status_lower
           || pyIn "available" status_lower then darkGreen
      else gray128

/-- Positive keyword list scanned over feedback text in `get_feedback_color`. -/
def positive_keywords : List String :=
  ["happy", "appreciated", "successful", "good", "excellent", "satisfied"]

/-- Negative keyword list scanned over feedback text in `get_feedback_color`. -/
def negative_keywords : List String :=
  ["unhappy", "issue", "problem", "concern", "disappointed"]

/-- The satisfaction-level block of `get_feedback_color` (src/__main__.py
lines 668-676): `none` when the field is empty or matches no keyword group
(the Python code then falls through), `some c` when a keyword group fires. -/
def satisfaction_color (satisfaction_level : String) : Option RGBColor :=
  if satisfaction_level = "" then none
  else
    let sat_lower := pyLower satisfaction_level
    if pyIn "high" sat_lower || pyIn "positive" sat_lower || pyIn "good" sat_lower then
      some green
    else if pyIn "low" sat_lower || pyIn "negative" sat_lower || pyIn "poor" sat_lower then
      some lightRed
    else if pyIn "medium" sat_lower || pyIn "neutral" sat_lower then
      some lightYellow
    else none

/-- The feedback-text block of `get_feedback_color` (src/__main__.py lines
678-690): `none` when the text is empty, literally `N/A`, or matches no
keyword list (the Python code then reaches the default). -/
def feedback_text_color (feedback_text : String) : Option RGBColor :=
  if feedback_text = "" || feedback_text = "N/A" then none
  else
    let feedback_lower := pyLower feedback_text
    if positive_keywords.any (fun k => pyIn k feedback_lower) then some lightYellow
    else if negative_keywords.any (fun k => pyIn k feedback_lower) then some lightRed
    else none

/-- `get_feedback_color` (src/__main__.py lines 664-693): satisfaction-level
block first; if it returns (a keyword group fired) that color wins,
otherwise fall through to the feedback-text block, defaulting to
`RGBColor(217, 217, 217)`. -/
def get_feedback_color (satisfaction_level feedback_text : String) : RGBColor :=
  match satisfaction_color satisfaction_level with
  | some c => c
  | none => (feedback_text_color feedback_text).getD lightGray

/-- The distribution loop of `calculate_projects_per_slide` (src/__main__.py
lines 209-214): the first `remainder` slides get `base_count + 1` projects,
the rest get `base_count`. -/
def distribution_list (num_slides base_count remainder : Nat) : List Nat :=
  (List.range num_slides).map fun i => if i < remainder then base_count + 1 else base_count

/-- `calculate_projects_per_slide` (src/__main__.py lines 174-216).  The
`base_count < min_per_slide` branch recomputes `num_slides`, `base_count`
and `remainder` with the identical formulas, exactly as the source does. -/
def calculate_projects_per_slide
    (total_projects min_per_slide max_per_slide : Nat) : List Nat :=
  if total_projects = 0 then []
  else if total_projects ≤ max_per_slide then [total_projects]
  else
    let num_slides := (total_projects + max_per_slide - 1) / max_per_slide
    let base_count := total_projects / num_slides
    let remainder := total_projects % num_slides
    if base_count < min_per_slide then
      let num_slides2 := (total_projects + max_per_slide - 1) / max_per_slide
      let base_count2 := total_projects / num_slides2
      let remainder2 := total_projects % num_slides2
      distribution_list num_slides2 base_count2 remainder2
    else
      distribution_list num_slides base_count remainder

/-- The paginator with the redundant `base_count < min_per_slide`
recomputation branch removed: a single computation of the slide count,
base size and remainder.  Used to state the refinement claim. -/
def calculate_projects_per_slide_simplified
    (total_projects min_per_slide max_per_slide : Nat) : List Nat :=
  if total_projects = 0 then []
  else if total_projects ≤ max_per_slide then [total_projects]
  else
    let num_slides := (total_projects + max_per_slide - 1) / max_per_slide
    distribution_list num_slides (total_projects / num_slides) (total_projects % num_slides)

/-- `calculate_column_widths` (src/__main__.py lines 218-236): remaining
width after the fixed column, divided equally among the project columns.
Widths are modelled as exact rationals. -/
def calculate_column_widths (num_projects : Nat) (total_width fixed_col_width : ℚ) :
    ℚ × ℚ :=
  let remaining_width := total_width - fixed_col_width
  let project_col_width := remaining_width / (num_projects : ℚ)
  (fixed_col_width, project_col_width)

/-! ### The serverless entry point `main` (src/__main__.py lines 1295-1388)

The entry point's effects are abstracted into explicit parameters: the
outcome of `parse_incoming_data` plus the list-shape check (either a
parse-level exception message or the parsed record list), the timestamped
filename produced by `create_complete_presentation`, and the outcome of the
`requests.post` delivery call (either success or a
`RequestException` message).  A record is a flat string-to-string mapping. -/

/-- One inbound project record: a flat association list of field names to
string values. -/
abbrev ProjectRecord : Type := List (String × String)

/-- The response dictionary returned by `main`; absent keys are `none`. -/
structure MainResponse where
  status : String
  message : String
  records_processed : Option Nat
  ppt_filename : Option String
  power_automate_status : Option String
  error : Option String
deriving DecidableEq, Repr

/-- `main` (src/__main__.py lines 1295-1388) as a function of its abstracted
effects.  Parse failure (`json.JSONDecodeError`, `ValueError`,
`SyntaxError`) yields the `"Error"` response of line 1377; with a parsed
record list, delivery success yields the `"Success"` response of line 1354
and a delivery `RequestException` yields the `"Partial Success"` response
of line 1365, which keeps the produced filename and record count. -/
def mainOutcome (parsed : Except String (List ProjectRecord))
    (ppt_filename : String) (delivery : Except String Unit) : MainResponse :=
  match parsed with
  | .error e =>
      { status := "Error"
        message := "Parsing failed: " ++ e
        records_processed := none
        ppt_filename := none
        power_automate_status := none
        error := none }
  | .ok incoming_data =>
      match delivery with
      | .ok _ =>
          { status := "Success"
            message := "PowerPoint created and sent to Power Automate successfully!"
            records_processed := some incoming_data.length
            ppt_filename := some ppt_filename
            power_automate_status := some "Sent"
            error := none }
      | .error e =>
          { status := "Partial Success"
            message := "PowerPoint created but failed to send to Power Automate"
            records_processed := some incoming_data.length
            ppt_filename := some ppt_filename
            power_automate_status := none
            error := some e }

/-! ### Helper lemmas about the distribution loop -/

/-- Appending one more slide to the distribution list. -/
theorem distribution_list_succ (n b r : Nat) :
    distribution_list (n + 1) b r =
      distribution_list n b r ++ [if n < r then b + 1 else b] := by
  simp [distribution_list, List.range_succ]

/-- The distribution loop hands out `n * b` projects plus one extra for each
of the first `min r n` slides. -/
theorem distribution_list_sum (n b r : Nat) :
    (distribution_list n b r).sum = n * b + min r n := by
  induction n with
  | zero => simp [distribution_list]
  | succ n ih =>
      rw [distribution_list_succ, List.sum_append, ih, Nat.succ_mul]
      by_cases h : n < r
      · simp only [if_pos h, List.sum_cons, List.sum_nil]
        omega
      · simp only [if_neg h, List.sum_cons, List.sum_nil]
        omega

/-- Every entry of the distribution list is `b`, or `b + 1` when the
remainder is positive. -/
theorem distribution_list_mem {n b r g : Nat} (h : g ∈ distribution_list n b r) :
    g = b ∨ (g = b + 1 ∧ 0 < r) := by
  simp only [distribution_list, List.mem_map, List.mem_range] at h
  obtain ⟨i, _, hg⟩ := h
  by_cases hir : i < r
  · right
    rw [if_pos hir] at hg
    exact ⟨hg.symm, by omega⟩
  · left
    rw [if_neg hir] at hg
    exact hg.symm

/-- In the `total > max` regime both branches of the paginator reduce to a
single `distribution_list` call on the recomputed (identical) values. -/
theorem calculate_projects_per_slide_pos (total min max : Nat)
    (h0 : total ≠ 0) (h1 : ¬ total ≤ max) :
    calculate_projects_per_slide total min max =
      distribution_list ((total + max - 1) / max)
        (total / ((total + max - 1) / max))
        (total % ((total + max - 1) / max)) := by
  unfold calculate_projects_per_slide
  rw [if_neg h0, if_neg h1]
  dsimp only
  rw [ite_self]

/-! ### Claim theorems -/

/-- C1: for every non-negative integer `total`, the paginator's output is a
sequence of group sizes whose sum equals `total`:
`(calculate_projects_per_slide total 3 5).sum = total`. -/
theorem calculate_projects_per_slide_sum_eq_total (total : Nat) :
    (calculate_projects_per_slide total 3 5).sum = total := by
  by_cases h0 : total = 0
  · subst h0
    rfl
  · by_cases h5 : total ≤ 5
    · unfold calculate_projects_per_slide
      rw [if_neg h0, if_pos h5]
      simp
    · rw [calculate_projects_per_slide_pos total 3 5 h0 h5, distribution_list_sum]
      have hn : 0 < (total + 5 - 1) / 5 := by omega
      have hdm := Nat.div_add_mod total ((total + 5 - 1) / 5)
      have hmod := Nat.mod_lt total hn
      omega

/-- C2: with `min = 3` and `max = 5`, every group size the paginator
produces is at most `5`, and as soon as `total > 5` (more than one group is
needed) every group size is also at least `3`; the only exception is the
unavoidable single small group when `total ≤ 5`. -/
theorem calculate_projects_per_slide_size_bounds (total g : Nat)
    (hg : g ∈ calculate_projects_per_slide total 3 5) :
    g ≤ 5 ∧ (5 < total → 3 ≤ g) := by
  by_cases h0 : total = 0
  · subst h0
    simp [calculate_projects_per_slide] at hg
  · by_cases h5 : total ≤ 5
    · unfold calculate_projects_per_slide at hg
      rw [if_neg h0, if_pos h5] at hg
      simp only [List.mem_singleton] at hg
      subst hg
      exact ⟨h5, by omega⟩
    · rw [calculate_projects_per_slide_pos total 3 5 h0 h5] at hg
      have hn : 0 < (total + 5 - 1) / 5 := by omega
      have hb3 : 3 ≤ total / ((total + 5 - 1) / 5) := by
        rw [Nat.le_div_iff_mul_le hn]
        omega
      have hb6 : total / ((total + 5 - 1) / 5) < 6 := by
        rw [Nat.div_lt_iff_lt_mul hn]
        omega
      have hdm := Nat.div_add_mod total ((total + 5 - 1) / 5)
      rcases distribution_list_mem hg with hgb | ⟨hgb, hr⟩
      · subst hgb
        exact ⟨by omega, fun _ => by omega⟩
      · subst hgb
        by_cases hfull : total / ((total + 5 - 1) / 5) = 5
        · rw [hfull] at hdm
          omega
        · exact ⟨by omega, fun _ => by omega⟩

/-- C7: concrete paginator outputs with `min = 3`, `max = 5`:
`paginate 0 = []`, `paginate total = [total]` for each
`total ∈ {3, 4, 5}`, `paginate 6 = [3, 3]`, `paginate 11 = [4, 4, 3]`, and
`paginate 12 = [4, 4, 4]`. -/
theorem calculate_projects_per_slide_concrete_values :
    calculate_projects_per_slide 0 3 5 = [] ∧
    calculate_projects_per_slide 3 3 5 = [3] ∧
    calculate_projects_per_slide 4 3 5 = [4] ∧
    calculate_projects_per_slide 5 3 5 = [5] ∧
    calculate_projects_per_slide 6 3 5 = [3, 3] ∧
    calculate_projects_per_slide 11 3 5 = [4, 4, 3] ∧
    calculate_projects_per_slide 12 3 5 = [4, 4, 4] := by
  decide

/-- C8: the `base_count < min_per_slide` recomputation branch repeats the
identical formulas and is a no-op: for every `total` (indeed for every
`min`/`max` pair) the paginator agrees with the simplified paginator that
computes the slide count, base size and remainder once. -/
theorem calculate_projects_per_slide_eq_simplified (total min max : Nat) :
    calculate_projects_per_slide total min max =
      calculate_projects_per_slide_simplified total min max := by
  by_cases h0 : total = 0
  · subst h0
    rfl
  · by_cases h1 : total ≤ max
    · unfold calculate_projects_per_slide calculate_projects_per_slide_simplified
      rw [if_neg h0, if_pos h1, if_neg h0, if_pos h1]
    · rw [calculate_projects_per_slide_pos total min max h0 h1]
      unfold calculate_projects_per_slide_simplified
      rw [if_neg h0, if_neg h1]

/-- C6: for every dynamic-column count `k ≥ 1` and widths `w > f ≥ 0`, the
column allocator returns exactly `(f, (w - f) / k)`, and
`f + k * ((w - f) / k) = w` holds exactly over the rationals. -/
theorem calculate_column_widths_spec (k : Nat) (w f : ℚ)
    (hk : 1 ≤ k) (hfw : f < w) (hf : 0 ≤ f) :
    calculate_column_widths k w f = (f, (w - f) / (k : ℚ)) ∧
    f + (k : ℚ) * ((w - f) / (k : ℚ)) = w := by
  refine ⟨rfl, ?_⟩
  have hk0 : (k : ℚ) ≠ 0 := Nat.cast_ne_zero.mpr (by omega)
  rw [mul_div_cancel₀ _ hk0]
  ring

/-- C6 witness: the allocator at the source's default widths
(`total_width = 12.7`, `fixed_col_width = 2.5`) with four project columns. -/
theorem calculate_column_widths_spec_witness :
    (1 ≤ 4 ∧ (5 / 2 : ℚ) < 127 / 10 ∧ (0 : ℚ) ≤ 5 / 2) ∧
    (calculate_column_widths 4 (127 / 10) (5 / 2) =
      (5 / 2, (127 / 10 - 5 / 2) / (4 : ℚ)) ∧
    (5 / 2 : ℚ) + (4 : ℚ) * ((127 / 10 - 5 / 2) / (4 : ℚ)) = 127 / 10) :=
  ⟨⟨by norm_num, by norm_num, by norm_num⟩,
    calculate_column_widths_spec 4 (127 / 10) (5 / 2)
      (by norm_num) (by norm_num) (by norm_num)⟩

/-- C2 witness: the group size `4` appears in the paginator's output for
`total = 11`, and it satisfies the stated bounds. -/
theorem calculate_projects_per_slide_size_bounds_witness :
    4 ∈ calculate_projects_per_slide 11 3 5 ∧ (4 ≤ 5 ∧ (5 < 11 → 3 ≤ 4)) :=
  ⟨by decide, calculate_projects_per_slide_size_bounds 11 4 (by decide)⟩

/-- C3 counterexample: `"yes pending"` contains both the positive keyword
`yes` and the warning keyword `pending`, reaches the substring fallback,
and is classified orange (Warning), not green (Positive) — the fallback
checks the warning tier before the positive tier. -/
theorem get_quality_status_color_yes_pending_not_positive :
    get_quality_status_color "yes pending" = amber ∧ amber ≠ darkGreen := by
  decide

/-- C3 amended: in the substring fallback of `get_quality_status_color`
the tiers are searched in the order not-applicable → warning → positive,
so any string reaching the fallback whose lowercase form avoids the
not-applicable keywords and contains a warning keyword is classified
orange (Warning), even if it also contains a positive keyword. -/
theorem get_quality_status_color_fallback_order (s : String)
    (hne : s ≠ "")
    (hg : (["YES", "Y", "COMPLETE", "COMPLETED", "DONE", "UP TO DATE"].any
      (fun t => pyStripUpper s == t.toList)) = false)
    (hw : (["PARTIAL", "PENDING", "IN PROGRESS", "SCHEDULED", "ONGOING"].any
      (fun t => pyStripUpper s == t.toList)) = false)
    (hn : (["N/A", "NA", "NOT APPLICABLE", "NO", "NONE"].any
      (fun t => pyStripUpper s == t.toList)) = false)
    (hna : (pyIn "not applicable" (pyLower s) || pyIn "n/a" (pyLower s)) = false)
    (hp : (pyIn "pending" (pyLower s) || pyIn "partial" (pyLower s)
      || pyIn "missing" (pyLower s)) = true) :
    get_quality_status_color s = amber := by
  unfold get_quality_status_color
  rw [if_neg hne]
  dsimp only
  rw [hg, hw, hn, hna, hp]
  rfl

/-- C3 amended witness: the amended fallback-order theorem applied at the
concrete input `"yes pending"`. -/
theorem get_quality_status_color_fallback_order_witness :
    get_quality_status_color "yes pending" = amber :=
  get_quality_status_color_fallback_order "yes pending"
    (by decide) (by decide) (by decide) (by decide) (by decide) (by decide)

/-- C4 counterexample: the sentiment classifier `get_status_color` maps
`"No"`, `"None"` and `"Not applicable"` to red — not to either of
its gray categories — because their lowercase forms contain the
substring `no`. -/
theorem get_status_color_no_is_red :
    get_status_color "No" = red ∧
    get_status_color "None" = red ∧
    get_status_color "Not applicable" = red ∧
    red ≠ lightGray ∧ red ≠ gray192 := by
  decide

/-- C4 amended: in `get_status_color`, red is produced exactly by values
whose lowercase form contains `red` or `no` (after the green/yes and
amber/yellow tiers fail); in particular `"No"`, `"None"` and
`"Not applicable"` all map to red, not to the neutral grays. -/
theorem get_status_color_red_only_from_red_or_no :
    get_status_color "No" = red ∧
    get_status_color "None" = red ∧
    get_status_color "Not applicable" = red ∧
    ∀ s, get_status_color s = red →
      pyIn "red" (pyLower s) = true ∨ pyIn "no" (pyLower s) = true := by
  refine ⟨by decide, by decide, by decide, fun s h => ?_⟩
  unfold get_status_color at h
  by_cases h0 : s = ""
  · rw [if_pos h0] at h
    exact absurd h (by decide)
  · rw [if_neg h0] at h
    dsimp only at h
    by_cases h1 : (pyIn "green" (pyLower s) || pyIn "yes" (pyLower s)) = true
    · rw [if_pos h1] at h
      exact absurd h (by decide)
    · rw [if_neg h1] at h
      by_cases h2 : (pyIn "amber" (pyLower s) || pyIn "yellow" (pyLower s)) = true
      · rw [if_pos h2] at h
        exact absurd h (by decide)
      · rw [if_neg h2] at h
        by_cases h3 : (pyIn "red" (pyLower s) || pyIn "no" (pyLower s)) = true
        · rcases Bool.or_eq_true_iff.mp h3 with h4 | h4
          · exact Or.inl h4
          · exact Or.inr h4
        · rw [if_neg h3] at h
          exact absurd h (by decide)

/-- C4 amended witness: the only-from-`red`-or-`no` direction of the
amended theorem applied at the concrete input `"No"`. -/
theorem get_status_color_red_only_from_red_or_no_witness :
    pyIn "red" (pyLower "No") = true ∨ pyIn "no" (pyLower "No") = true :=
  get_status_color_red_only_from_red_or_no.2.2.2 "No" (by decide)

/-- C5 counterexample: with the non-empty satisfaction level `"unknown"`
(which matches none of the keyword groups), the feedback text still
changes the result of `get_feedback_color`. -/
theorem get_feedback_color_nonempty_aux_feedback_matters :
    ("unknown" : String) ≠ "" ∧
    get_feedback_color "unknown" "happy" ≠ get_feedback_color "unknown" "" := by
  decide

/-- C5 amended: the satisfaction-level field takes priority only when it
matches one of its keyword groups; whenever the satisfaction block fires
(`satisfaction_color aux = some c`), the result is `c` and the feedback
text has no influence.  When a non-empty satisfaction value matches no
keyword group, `get_feedback_color` falls through to the feedback text. -/
theorem get_feedback_color_aux_keyword_priority (aux t1 t2 : String)
    (c : RGBColor) (h : satisfaction_color aux = some c) :
    get_feedback_color aux t1 = c ∧
    get_feedback_color aux t1 = get_feedback_color aux t2 := by
  unfold get_feedback_color
  rw [h]
  exact ⟨rfl, rfl⟩

/-- C5 amended witness: the priority theorem applied at the satisfaction
level `"high"` (whose keyword group fires with green) and the feedback
texts `"issue"` and `""`. -/
theorem get_feedback_color_aux_keyword_priority_witness :
    satisfaction_color "high" = some green ∧
    (get_feedback_color "high" "issue" = green ∧
     get_feedback_color "high" "issue" = get_feedback_color "high" "") :=
  ⟨by decide, get_feedback_color_aux_keyword_priority "high" "issue" "" green (by decide)⟩

/-- C9: when parsing succeeded and the presentation was produced, a failed
delivery call yields the distinct `"Partial Success"` outcome, which still
carries the produced filename and the record count, and is not the
`"Error"` outcome reserved for parse-level failures. -/
theorem mainOutcome_partial_success (records : List ProjectRecord)
    (fname e : String) :
    (mainOutcome (.ok records) fname (.error e)).status = "Partial Success" ∧
    (mainOutcome (.ok records) fname (.error e)).ppt_filename = some fname ∧
    (mainOutcome (.ok records) fname (.error e)).records_processed =
      some records.length ∧
    (mainOutcome (.ok records) fname (.error e)).status ≠ "Error" ∧
    ∀ pe, (mainOutcome (.error pe) fname (.error e)).status = "Error" := by
  refine ⟨rfl, rfl, rfl, ?_, fun _ => rfl⟩
  show ("Partial Success" : String) ≠ "Error"
  decide

/-- C10 (implicit): when the satisfaction level is empty, the feedback
classifier never returns green — the feedback-text scan yields only light
yellow (positive keywords), light red (negative keywords) or the gray
default; green arises only from the satisfaction field itself. -/
theorem get_feedback_color_empty_aux_never_green (t : String) :
    (get_feedback_color "" t = lightYellow ∨
     get_feedback_color "" t = lightRed ∨
     get_feedback_color "" t = lightGray) ∧
    get_feedback_color "" t ≠ green := by
  unfold get_feedback_color feedback_text_color
  have h : satisfaction_color "" = none := rfl
  rw [h]
  dsimp only
  split
  · exact ⟨Or.inr (Or.inr rfl), by decide⟩
  · split
    · exact ⟨Or.inl rfl, by decide⟩
    · split
      · exact ⟨Or.inr (Or.inl rfl), by decide⟩
      · exact ⟨Or.inr (Or.inr rfl), by decide⟩

end DeliveryDeploy
